import Mathlib

/-!
Shallow embedding of `simple_contig_joiner.py`: the reverse-complement
utility (`rev_comp`), the tiling-report parser (`parse_tiling`) and the
merge engine (`merge_contigs_and_ref`), together with executable models of
the Python string operations they rely on (`strip`, `split`, slicing with
negative indices, `int()` conversion, substring membership).

Strings are modelled as Lean `String`s (lists of characters); Python
`dict`s of sequences are modelled as association lists; Python exceptions
are modelled with an explicit error type and `Except` / explicit error
components.  The two floating-point columns of a tiling record are
informational only (never used in a merge decision), so they are kept as
their raw text.
-/

/-- Python `str.strip()` (ASCII whitespace at both ends). -/
def pyStrip (s : String) : String :=
  ⟨((s.data.dropWhile Char.isWhitespace).reverse.dropWhile Char.isWhitespace).reverse⟩

/-- Helper for `pySplitTab`: accumulates the current field (reversed). -/
def pySplitTabAux (cur : List Char) : List Char → List String
  | [] => [⟨cur.reverse⟩]
  | c :: rest =>
    if c = '\t' then ⟨cur.reverse⟩ :: pySplitTabAux [] rest
    else pySplitTabAux (c :: cur) rest

/-- Python `str.split("\t")`: every tab is a separator, empty fields kept. -/
def pySplitTab (s : String) : List String :=
  pySplitTabAux [] s.data

/-- Helper for `pySplitWs`. -/
def pySplitWsAux (cur : List Char) : List Char → List String
  | [] => if cur.isEmpty then [] else [⟨cur.reverse⟩]
  | c :: rest =>
    if c.isWhitespace then
      if cur.isEmpty then pySplitWsAux [] rest
      else ⟨cur.reverse⟩ :: pySplitWsAux [] rest
    else pySplitWsAux (c :: cur) rest

/-- Python `str.split()` with no argument: split on whitespace runs,
discarding empty fields. -/
def pySplitWs (s : String) : List String :=
  pySplitWsAux [] s.data

/-- Python `s.startswith(c)` for a one-character needle. -/
def pyStartsWith (s : String) (c : Char) : Bool :=
  match s.data with
  | [] => false
  | a :: _ => a = c

/-- Python `s[1:]`. -/
def pyDrop1 (s : String) : String :=
  ⟨s.data.drop 1⟩

/-- Clamp one slice bound the way Python does: negative indices count from
the end, and the result is clamped into `[0, n]`. -/
def pyBound (n : Nat) (i : Int) : Nat :=
  let j : Int := if i < 0 then i + n else i
  if j < 0 then 0 else min j.toNat n

/-- Python slicing `s[a:b]` with step 1; `none` stands for an omitted bound. -/
def pySlice (s : String) (a b : Option Int) : String :=
  let n := s.length
  let lo := match a with
    | none => 0
    | some i => pyBound n i
  let hi := match b with
    | none => n
    | some i => pyBound n i
  ⟨(s.data.take hi).drop lo⟩

/-- `s` truncated to its first `n` characters (used to state clipping). -/
def strTake (s : String) (n : Nat) : String :=
  ⟨s.data.take n⟩

/-- Does `sub` start `l`? (character-list prefix test). -/
def listStartsWith : List Char → List Char → Bool
  | [], _ => true
  | _ :: _, [] => false
  | a :: as, b :: bs => a = b && listStartsWith as bs

/-- Is `sub` a contiguous run of `l`? -/
def listSubstr (sub : List Char) : List Char → Bool
  | [] => sub.isEmpty
  | b :: bs => listStartsWith sub (b :: bs) || listSubstr sub bs

/-- Python `sub in s` on strings: contiguous-substring membership.  Note the
empty string is a substring of every string. -/
def pyIn (sub s : String) : Bool :=
  listSubstr sub.data s.data

/-- Python `int(s)`: optional surrounding whitespace, optional sign, at
least one digit (underscore grouping is not modelled; it never occurs in a
tiling report).  `none` models the `ValueError` raised otherwise. -/
def pyInt (s : String) : Option Int :=
  match (pyStrip s).data with
  | [] => none
  | c :: rest =>
    let signed : Bool × List Char :=
      if c = '-' then (true, rest)
      else if c = '+' then (false, rest)
      else (false, c :: rest)
    if signed.2.isEmpty || !(signed.2.all Char.isDigit) then none
    else
      let v : Nat := signed.2.foldl (fun a d => a * 10 + (d.toNat - 48)) 0
      some (if signed.1 then -(v : Int) else (v : Int))

/-- The character translation of `rev_comp`'s `maketrans` table
(`"ACGTNacgtn"` to `"TGCANtgcan"`); characters outside the table pass
through untranslated, as with Python's `str.translate`. -/
def compChar (c : Char) : Char :=
  if c = 'A' then 'T'
  else if c = 'C' then 'G'
  else if c = 'G' then 'C'
  else if c = 'T' then 'A'
  else if c = 'N' then 'N'
  else if c = 'a' then 't'
  else if c = 'c' then 'g'
  else if c = 'g' then 'c'
  else if c = 't' then 'a'
  else if c = 'n' then 'n'
  else c

/-- `rev_comp(dna)` from the source: `dna.translate(trans)[::-1]` —
translate every character, then reverse. -/
def rev_comp (dna : String) : String :=
  ⟨(dna.data.map compChar).reverse⟩

example : rev_comp (String.mk ['A', 'a', 'G', 'g', 'C', 'c', 'T', 't', 'N', 'n'])
    = String.mk ['n', 'N', 'a', 'A', 'g', 'G', 'c', 'C', 't', 'T'] := by decide

example : rev_comp "AaGgCcTtNn" = "nNaAgGcCtT" := by decide

example : pySplitTab "1\t100\t0" = ["1", "100", "0"] := by decide

/-- One record of the tiling report (the `TilingContig` namedtuple).  The
two float columns (`aln_cov`, `perc_ident`) are informational only and are
kept as their raw text. -/
structure TilingContig where
  ref_name : String
  ref_start : Int
  ref_end : Int
  gap2next : Int
  len : Int
  aln_cov : String
  perc_ident : String
  ori : String
  name : String
  deriving DecidableEq

/-- The Python exceptions the parser and the merge engine can raise. -/
inductive PyErr where
  /-- `IndexError`: header line with no token after the `>`. -/
  | indexError : PyErr
  /-- `ValueError`: record line does not split into exactly 8 tab-separated
  fields (tuple unpacking fails). -/
  | unpackValueError : PyErr
  /-- `AssertionError` from `assert ori in "+-"` (the spec's FormatError). -/
  | assertOri (ori : String) : PyErr
  /-- `ValueError` from `int()` on a non-integer field. -/
  | intValueError : PyErr
  /-- `UnboundLocalError`: a record line before any `>` header references
  the unassigned `ref_name`. -/
  | nameError : PyErr
  /-- `AssertionError`: tiling reference name not found in the reference
  map (the spec's ReferenceNotFoundError). -/
  | refNotFound (rn : String) : PyErr
  /-- `AssertionError`: "No support for multiple references" (the spec's
  MultiReferenceError). -/
  | multiRef : PyErr
  /-- `KeyError`: contig name missing from the contig map. -/
  | keyError (k : String) : PyErr
  /-- `raise ValueError(contig.ori)`: orientation neither `+` nor `-` at
  merge time. -/
  | oriValueError (ori : String) : PyErr
  /-- `raise ValueError(tiling_file)`: zero placements (the spec's
  EmptyTilingError). -/
  | emptyTiling : PyErr
  deriving DecidableEq

/-- Parse one line of the tiling report, given the reference name from the
most recent `>` header (`none` if no header has been seen).  Follows
`parse_tiling`'s body in source order: header test, 8-field tab unpacking,
`assert ori in "+-"`, integer conversions, `ref_start -= 1`, yield.
Returns the updated current reference name and the yielded record, if any.
The float conversions of `aln_cov`/`perc_ident` are not modelled. -/
def parseLine (ref_name : Option String) (line : String) :
    Except PyErr (Option String × Option TilingContig) :=
  if pyStartsWith line '>' then
    match pySplitWs (pyDrop1 line) with
    | [] => .error .indexError
    | t :: _ => .ok (some (pyStrip t), none)
  else
    match pySplitTab (pyStrip line) with
    | [rs, re, gn, cl, ac, pid, ori, nm] =>
      if pyIn ori "+-" then
        match pyInt rs, pyInt re, pyInt gn, pyInt cl with
        | some rsi, some rei, some gni, some cli =>
          match ref_name with
          | some rn =>
            .ok (ref_name, some ⟨rn, rsi - 1, rei, gni, cli, ac, pid, ori, nm⟩)
          | none => .error .nameError
        | _, _, _, _ => .error .intValueError
      else .error (.assertOri ori)
    | _ => .error .unpackValueError

/-- Fold `parseLine` over the lines, threading the current reference name
and collecting the yielded records. -/
def parseTilingAux (ref_name : Option String) :
    List String → Except PyErr (List TilingContig)
  | [] => .ok []
  | line :: rest =>
    match parseLine ref_name line with
    | .error e => .error e
    | .ok (rn, none) => parseTilingAux rn rest
    | .ok (rn, some c) =>
      match parseTilingAux rn rest with
      | .error e => .error e
      | .ok cs => .ok (c :: cs)

/-- `parse_tiling`: the records yielded for the given report lines (the
source's generator is consumed eagerly here; an error on any line aborts
the whole parse, as it aborts the consuming merge loop in the source). -/
def parse_tiling (lines : List String) : Except PyErr (List TilingContig) :=
  parseTilingAux none lines

example : parse_tiling [">ref1 extra", "1\t100\t0\t100\t100.0\t100.0\t+\tcontig1"]
    = .ok [⟨"ref1", 0, 100, 0, 100, "100.0", "100.0", "+", "contig1"⟩] := by rfl

/-- The merge loop's mutable state: `last_refend` (exclusive, initially 0),
`last_refname` (initially unset) and the text written to the output sink so
far. -/
structure MState where
  last_refend : Int
  last_refname : Option String
  out : String
  deriving DecidableEq

/-- The `assert contig.ref_name == last_refname or last_refname is None`
condition. -/
def sameRef (last : Option String) (rn : String) : Bool :=
  match last with
  | none => true
  | some r => r = rn

/-- The contig slice selection of the merge loop (source lines 246-258):
clip boundary `printto` is the negative `gap2next` when there is an overlap
with the next contig, then the forward sequence or the reverse complement
is sliced by `[:printto]`; an orientation other than `+`/`-` raises
`ValueError`, a missing contig name raises `KeyError`. -/
def contigSlice (contig_seqs : List (String × String)) (contig : TilingContig) :
    Except PyErr String :=
  let printto : Option Int := if contig.gap2next < 0 then some contig.gap2next else none
  if contig.ori = "+" then
    match contig_seqs.lookup contig.name with
    | none => .error (.keyError contig.name)
    | some cseq => .ok (pySlice cseq none printto)
  else if contig.ori = "-" then
    match contig_seqs.lookup contig.name with
    | none => .error (.keyError contig.name)
    | some cseq => .ok (pySlice (rev_comp cseq) none printto)
  else .error (.oriValueError contig.ori)

/-- One iteration of the merge loop (source lines 232-260): the two
asserts, the gap fill from the reference when `ref_start > last_refend`,
the contig slice, and the state update.  On an error the state records
what had already been written to the sink before the exception. -/
def mergeStep (contig_seqs ref_seq : List (String × String)) (st : MState)
    (contig : TilingContig) : MState × Option PyErr :=
  match ref_seq.lookup contig.ref_name with
  | none => (st, some (.refNotFound contig.ref_name))
  | some rseq =>
    if sameRef st.last_refname contig.ref_name then
      let out1 :=
        if contig.ref_start > st.last_refend then
          st.out ++ pySlice rseq (some st.last_refend) (some contig.ref_start)
        else st.out
      match contigSlice contig_seqs contig with
      | .error e => ({ st with out := out1 }, some e)
      | .ok sq => (⟨contig.ref_end, some contig.ref_name, out1 ++ sq⟩, none)
    else (st, some .multiRef)

/-- The merge loop over the placement stream; stops at the first error. -/
def mergeLoop (contig_seqs ref_seq : List (String × String)) (st : MState) :
    List TilingContig → MState × Option PyErr
  | [] => (st, none)
  | c :: rest =>
    match mergeStep contig_seqs ref_seq st c with
    | (st', none) => mergeLoop contig_seqs ref_seq st' rest
    | (st', some e) => (st', some e)

/-- `merge_contigs_and_ref`, as the text successfully written to the sink:
the `>joined` header, the loop over the placements, then — when at least
one placement was processed — the trailing reference slice past
`last_refend` (when the reference extends further) and the final newline.
Zero placements raise `ValueError(tiling_file)` (`emptyTiling`). -/
def merge_contigs_and_ref (contig_seqs ref_seq : List (String × String))
    (tiling : List TilingContig) : Except PyErr String :=
  let st0 : MState := ⟨0, none, ">joined\n"⟩
  match mergeLoop contig_seqs ref_seq st0 tiling with
  | (_, some e) => .error e
  | (st, none) =>
    match st.last_refname with
    | none => .error .emptyTiling
    | some rn =>
      match ref_seq.lookup rn with
      | none => .error (.keyError rn)
      | some rseq =>
        let out :=
          if st.last_refend < (rseq.length : Int) then
            st.out ++ pySlice rseq (some st.last_refend) none
          else st.out
        .ok (out ++ "\n")

/-- The content of the output file after a merge run against a real file
path: `none` when no file remains.  On the zero-placement path the source
closes the handle and `os.unlink`s the file, so no file remains; on any
other exception the partially written file is left behind; on success the
file holds the full joined record. -/
def merge_to_file (contig_seqs ref_seq : List (String × String))
    (tiling : List TilingContig) : Option String :=
  let st0 : MState := ⟨0, none, ">joined\n"⟩
  match mergeLoop contig_seqs ref_seq st0 tiling with
  | (st, some _) => some st.out
  | (st, none) =>
    match st.last_refname with
    | none => none
    | some rn =>
      match ref_seq.lookup rn with
      | none => some st.out
      | some rseq =>
        let out :=
          if st.last_refend < (rseq.length : Int) then
            st.out ++ pySlice rseq (some st.last_refend) none
          else st.out
        some (out ++ "\n")

example :
    merge_contigs_and_ref [("contig1", "TTTTT")] [("ref1", "AAAAATTTTTGGGGG")]
      [⟨"ref1", 5, 10, 0, 5, "100.0", "100.0", "+", "contig1"⟩]
    = .ok ">joined\nAAAAATTTTTGGGGG\n" := by rfl

/-! ### Helper lemmas -/

theorem pySlice_none_none (s : String) : pySlice s none none = s := by
  cases s with
  | mk l => simp [pySlice, String.length]

theorem pyBound_neg (n : Nat) (g : Int) (hg : g < 0) : pyBound n g = n - g.natAbs := by
  simp only [pyBound]
  rw [if_pos hg]
  split <;> omega

theorem pySlice_none_neg (s : String) (g : Int) (hg : g < 0) :
    pySlice s none (some g) = strTake s (s.length - g.natAbs) := by
  simp only [pySlice, strTake, pyBound_neg s.length g hg, List.drop_zero]

theorem compChar_compChar (c : Char) : compChar (compChar c) = c := by
  by_cases h1 : c = 'A'
  · subst h1; decide
  by_cases h2 : c = 'C'
  · subst h2; decide
  by_cases h3 : c = 'G'
  · subst h3; decide
  by_cases h4 : c = 'T'
  · subst h4; decide
  by_cases h5 : c = 'N'
  · subst h5; decide
  by_cases h6 : c = 'a'
  · subst h6; decide
  by_cases h7 : c = 'c'
  · subst h7; decide
  by_cases h8 : c = 'g'
  · subst h8; decide
  by_cases h9 : c = 't'
  · subst h9; decide
  by_cases h10 : c = 'n'
  · subst h10; decide
  simp [compChar, h1, h2, h3, h4, h5, h6, h7, h8, h9, h10]

theorem rev_comp_length (s : String) : (rev_comp s).length = s.length := by
  cases s with
  | mk l => simp [rev_comp, String.length]

theorem contigSlice_eq_of_lookup (cs : List (String × String)) (c : TilingContig)
    (cseq : String) (hc : cs.lookup c.name = some cseq)
    (hori : c.ori = "+" ∨ c.ori = "-") :
    contigSlice cs c =
      .ok (pySlice (if c.ori = "+" then cseq else rev_comp cseq) none
        (if c.gap2next < 0 then some c.gap2next else none)) := by
  rcases hori with h | h <;> simp [contigSlice, h, hc]

theorem contigSlice_cases (cs : List (String × String)) (c : TilingContig) :
    (∃ sq, contigSlice cs c = .ok sq) ∨
      contigSlice cs c = .error (.keyError c.name) ∨
      contigSlice cs c = .error (.oriValueError c.ori) := by
  simp only [contigSlice]
  by_cases h1 : c.ori = "+"
  · rw [if_pos h1]
    rcases cs.lookup c.name with _ | q
    · right; left; rfl
    · left; exact ⟨_, rfl⟩
  · rw [if_neg h1]
    by_cases h2 : c.ori = "-"
    · rw [if_pos h2]
      rcases cs.lookup c.name with _ | q
      · right; left; rfl
      · left; exact ⟨_, rfl⟩
    · rw [if_neg h2]
      right; right; rfl

/-! ### Claim theorems -/

/-- C1: for a reference map holding exactly the 15-base sequence
`AAAAATTTTTGGGGG` and a contig map holding a contig with sequence `TTTTT`,
a single forward placement at `[5, 10)` with `gap_to_next = 0` merges to
the joined record `>joined` with sequence `AAAAATTTTTGGGGG`: the 5-base
gap before the placement is filled from the reference, the contig is
emitted in full, and the reference tail from position 10 is appended. -/
theorem merge_single_contig_end_to_end :
    merge_contigs_and_ref [("contig1", "TTTTT")] [("ref1", "AAAAATTTTTGGGGG")]
      [⟨"ref1", 5, 10, 0, 5, "100.0", "100.0", "+", "contig1"⟩]
      = .ok ">joined\nAAAAATTTTTGGGGG\n" := by rfl

/-- C4: parsing one reference header plus the record
`1\t100\t0\t100\t100.0\t100.0\t+\tcontig1` yields exactly one record with
`ref_start = 0` (1-based inclusive start minus 1), `ref_end = 100` (used
as-is as the exclusive bound) and forward (`+`) orientation. -/
theorem parse_tiling_single_record :
    parse_tiling [">ref1", "1\t100\t0\t100\t100.0\t100.0\t+\tcontig1"]
      = .ok [⟨"ref1", 0, 100, 0, 100, "100.0", "100.0", "+", "contig1"⟩] := by rfl

/-- C5 (counter-evidence): the source's `assert ori in "+-"` is a Python
substring test, so a record whose orientation field is the empty string is
yielded by the parser instead of failing: the claim that every
orientation other than exactly `+`/`-` fails the parse does not hold on
the code. -/
theorem parse_tiling_accepts_empty_ori :
    parse_tiling [">ref1", "1\t100\t0\t100\t100.0\t100.0\t\tcontig1"]
      = .ok [⟨"ref1", 0, 100, 0, 100, "100.0", "100.0", "", "contig1"⟩] := by rfl

/-- C7: with zero placements the merge fails with the empty-tiling error
(`raise ValueError(tiling_file)`), and when the sink is a real file path
the partially written file is removed, so no output file remains. -/
theorem merge_empty_tiling (contig_seqs ref_seq : List (String × String)) :
    merge_contigs_and_ref contig_seqs ref_seq [] = .error PyErr.emptyTiling ∧
      merge_to_file contig_seqs ref_seq [] = none :=
  ⟨rfl, rfl⟩

/-- C6: on strings over the alphabet `{A,C,G,T,N,a,c,g,t,n}` the reverse
complement is an involution: `rev_comp (rev_comp s) = s`. -/
theorem rev_comp_involution (s : String)
    (h : ∀ c ∈ s.data, c ∈ (['A', 'C', 'G', 'T', 'N', 'a', 'c', 'g', 't', 'n'] : List Char)) :
    rev_comp (rev_comp s) = s := by
  have hmap : ∀ m : List Char, m.map (compChar ∘ compChar) = m := by
    intro m
    induction m with
    | nil => rfl
    | cons a as ih => simp [ih, compChar_compChar a]
  cases s with
  | mk l =>
    show (⟨((l.map compChar).reverse.map compChar).reverse⟩ : String) = ⟨l⟩
    rw [List.map_reverse, List.reverse_reverse, List.map_map, hmap]

/-- Witness for C6 at the source's doctest input. -/
theorem rev_comp_involution_wit :
    (∀ c ∈ ("AaGgCcTtNn" : String).data,
        c ∈ (['A', 'C', 'G', 'T', 'N', 'a', 'c', 'g', 't', 'n'] : List Char)) ∧
      rev_comp (rev_comp "AaGgCcTtNn") = "AaGgCcTtNn" :=
  ⟨by decide, rev_comp_involution "AaGgCcTtNn" (by decide)⟩

/-- C3: the contig slice appended for a placement is the contig's sequence
for forward orientation, or the reverse complement of the full contig
sequence for reverse orientation; when `gap_to_next < 0` its final
`|gap_to_next|` characters are dropped (the slice `[:gap_to_next]`),
otherwise it is emitted in full. -/
theorem contigSlice_ori_clip (contig_seqs : List (String × String))
    (c : TilingContig) (cseq : String)
    (hc : contig_seqs.lookup c.name = some cseq)
    (hori : c.ori = "+" ∨ c.ori = "-") :
    contigSlice contig_seqs c =
      .ok (if c.gap2next < 0 then
            strTake (if c.ori = "+" then cseq else rev_comp cseq)
              ((if c.ori = "+" then cseq else rev_comp cseq).length - c.gap2next.natAbs)
          else (if c.ori = "+" then cseq else rev_comp cseq)) := by
  rw [contigSlice_eq_of_lookup contig_seqs c cseq hc hori]
  by_cases hg : c.gap2next < 0
  · rw [if_pos hg, if_pos hg, pySlice_none_neg _ _ hg]
  · rw [if_neg hg, if_neg hg, pySlice_none_none]

/-- Witness for C3: a 5-base forward contig with `gap_to_next = -3` emits
exactly its first 2 bases. -/
theorem contigSlice_ori_clip_wit :
    ([("contig1", "TTATT")] : List (String × String)).lookup
        (TilingContig.name ⟨"ref1", 0, 2, -3, 5, "100.0", "100.0", "+", "contig1"⟩)
      = some "TTATT" ∧
    (TilingContig.ori ⟨"ref1", 0, 2, -3, 5, "100.0", "100.0", "+", "contig1"⟩ = "+" ∨
      TilingContig.ori ⟨"ref1", 0, 2, -3, 5, "100.0", "100.0", "+", "contig1"⟩ = "-") ∧
    contigSlice [("contig1", "TTATT")] ⟨"ref1", 0, 2, -3, 5, "100.0", "100.0", "+", "contig1"⟩
      = .ok "TT" :=
  ⟨rfl, Or.inl rfl,
    contigSlice_ori_clip [("contig1", "TTATT")] ⟨"ref1", 0, 2, -3, 5, "100.0", "100.0", "+", "contig1"⟩
      "TTATT" rfl (Or.inl rfl)⟩

/-- C9: when `gap_to_next < 0` and its magnitude is at least the length of
the (possibly reverse-complemented) contig sequence, the negative-index
clipping clamps to the empty string rather than raising an error. -/
theorem contigSlice_overclip_empty (contig_seqs : List (String × String))
    (c : TilingContig) (cseq : String)
    (hc : contig_seqs.lookup c.name = some cseq)
    (hori : c.ori = "+" ∨ c.ori = "-")
    (hneg : c.gap2next < 0)
    (hlen : (if c.ori = "+" then cseq else rev_comp cseq).length ≤ c.gap2next.natAbs) :
    contigSlice contig_seqs c = .ok "" := by
  rw [contigSlice_eq_of_lookup contig_seqs c cseq hc hori, if_pos hneg,
    pySlice_none_neg _ _ hneg]
  have h0 : (if c.ori = "+" then cseq else rev_comp cseq).length - c.gap2next.natAbs = 0 := by
    omega
  rw [h0]
  rfl

/-- Witness for C9: a 5-base reverse contig with `gap_to_next = -7` emits
the empty string. -/
theorem contigSlice_overclip_empty_wit :
    ([("contig1", "TTATT")] : List (String × String)).lookup
        (TilingContig.name ⟨"ref1", 0, 2, -7, 5, "100.0", "100.0", "-", "contig1"⟩)
      = some "TTATT" ∧
    (TilingContig.ori ⟨"ref1", 0, 2, -7, 5, "100.0", "100.0", "-", "contig1"⟩ = "+" ∨
      TilingContig.ori ⟨"ref1", 0, 2, -7, 5, "100.0", "100.0", "-", "contig1"⟩ = "-") ∧
    TilingContig.gap2next ⟨"ref1", 0, 2, -7, 5, "100.0", "100.0", "-", "contig1"⟩ < 0 ∧
    (rev_comp "TTATT").length ≤ Int.natAbs (-7) ∧
    contigSlice [("contig1", "TTATT")] ⟨"ref1", 0, 2, -7, 5, "100.0", "100.0", "-", "contig1"⟩
      = .ok "" :=
  ⟨rfl, Or.inr rfl, by decide, by decide,
    contigSlice_overclip_empty [("contig1", "TTATT")]
      ⟨"ref1", 0, 2, -7, 5, "100.0", "100.0", "-", "contig1"⟩ "TTATT" rfl (Or.inr rfl)
      (by decide) (by decide)⟩

/-- C2: when a merge-loop iteration succeeds, the text it appends to the
output is the reference slice `ref_seq[last_refend : ref_start]` — present
exactly when `ref_start > last_refend`, absent otherwise — immediately
followed by that placement's contig slice. -/
theorem mergeStep_gap_fill (contig_seqs ref_seq : List (String × String))
    (st : MState) (c : TilingContig) (st' : MState) (rseq : String)
    (href : ref_seq.lookup c.ref_name = some rseq)
    (hok : mergeStep contig_seqs ref_seq st c = (st', none)) :
    ∃ sq, contigSlice contig_seqs c = .ok sq ∧
      st'.out = st.out ++
        (if c.ref_start > st.last_refend then
          pySlice rseq (some st.last_refend) (some c.ref_start)
        else "") ++ sq := by
  simp only [mergeStep, href] at hok
  by_cases hsame : sameRef st.last_refname c.ref_name = true
  · rw [if_pos hsame] at hok
    rcases hcs : contigSlice contig_seqs c with e | sq
    · rw [hcs] at hok
      simp at hok
    · rw [hcs] at hok
      refine ⟨sq, rfl, ?_⟩
      have h1 := congrArg Prod.fst hok
      simp only [Prod.fst] at h1
      rw [← h1]
      by_cases hgap : c.ref_start > st.last_refend
      · rw [if_pos hgap, if_pos hgap]
      · rw [if_neg hgap, if_neg hgap, String.append_empty]
  · rw [if_neg hsame] at hok
    simp at hok

/-- Witness for C2: a placement at `ref_start = 5` against a reference
whose first 5 bases are uncovered prepends those 5 reference bases before
the contig slice. -/
theorem mergeStep_gap_fill_wit :
    ([("ref1", "AAAAATTTTTGGGGG")] : List (String × String)).lookup "ref1"
      = some "AAAAATTTTTGGGGG" ∧
    mergeStep [("contig1", "TTTTT")] [("ref1", "AAAAATTTTTGGGGG")] ⟨0, none, ">joined\n"⟩
        ⟨"ref1", 5, 10, 0, 5, "100.0", "100.0", "+", "contig1"⟩
      = (⟨10, some "ref1", ">joined\nAAAAATTTTT"⟩, none) ∧
    (∃ sq, contigSlice [("contig1", "TTTTT")]
          ⟨"ref1", 5, 10, 0, 5, "100.0", "100.0", "+", "contig1"⟩ = .ok sq ∧
        MState.out ⟨10, some "ref1", ">joined\nAAAAATTTTT"⟩ = ">joined\n" ++
          (if (5 : Int) > (0 : Int) then
            pySlice "AAAAATTTTTGGGGG" (some 0) (some 5)
          else "") ++ sq) :=
  ⟨rfl, rfl,
    mergeStep_gap_fill [("contig1", "TTTTT")] [("ref1", "AAAAATTTTTGGGGG")]
      ⟨0, none, ">joined\n"⟩ ⟨"ref1", 5, 10, 0, 5, "100.0", "100.0", "+", "contig1"⟩
      ⟨10, some "ref1", ">joined\nAAAAATTTTT"⟩ "AAAAATTTTTGGGGG" rfl rfl⟩

/-- C8: a merge-loop iteration fails with the multiple-references assertion
exactly when the placement's reference name is present in the reference map
(the membership assert fires first otherwise) and a previously processed
placement recorded a different reference name; a first placement, or one
matching the recorded name, never raises it. -/
theorem mergeStep_multi_ref_iff (contig_seqs ref_seq : List (String × String))
    (st : MState) (c : TilingContig) :
    (mergeStep contig_seqs ref_seq st c).2 = some PyErr.multiRef ↔
      ((ref_seq.lookup c.ref_name).isSome = true ∧
        ∃ r, st.last_refname = some r ∧ r ≠ c.ref_name) := by
  rcases href : ref_seq.lookup c.ref_name with _ | rseq
  · simp [mergeStep, href]
  · simp only [mergeStep, href, Option.isSome_some, true_and]
    rcases hl : st.last_refname with _ | r
    · have hsame : sameRef none c.ref_name = true := rfl
      rw [if_pos hsame]
      rcases contigSlice_cases contig_seqs c with ⟨sq, hcs⟩ | hcs | hcs <;>
        simp [hcs]
    · by_cases hr : r = c.ref_name
      · have hsame : sameRef (some r) c.ref_name = true := by
          simp [sameRef, hr]
        rw [if_pos hsame]
        rcases contigSlice_cases contig_seqs c with ⟨sq, hcs⟩ | hcs | hcs <;>
          simp [hcs, hr]
      · have hsame : ¬ sameRef (some r) c.ref_name = true := by
          simp [sameRef, hr]
        rw [if_neg hsame]
        simp [hr]

/-- Helper for C10: with no header seen yet (`ref_name` unset), every
non-header line makes `parseLine` fail — malformed lines with their own
errors, and well-formed record lines with the unbound-`ref_name` error. -/
theorem parseLine_no_header (l : String) (h : pyStartsWith l '>' = false) :
    ∃ e, parseLine none l = .error e := by
  simp only [parseLine, h, Bool.false_eq_true, if_false]
  repeat' split
  all_goals exact ⟨_, rfl⟩

/-- C10: a tiling report whose first line is not a `>` reference header
fails to parse before yielding any record — there is no default reference
name, so a record line can only be yielded after a header has been seen. -/
theorem parse_tiling_headerless_fails (l : String) (rest : List String)
    (h : pyStartsWith l '>' = false) :
    ∃ e, parse_tiling (l :: rest) = .error e := by
  obtain ⟨e, he⟩ := parseLine_no_header l h
  exact ⟨e, by simp [parse_tiling, parseTilingAux, he]⟩

/-- Witness for C10: a well-formed record line with no preceding header
fails to parse. -/
theorem parse_tiling_headerless_fails_wit :
    pyStartsWith "1\t100\t0\t100\t100.0\t100.0\t+\tcontig1" '>' = false ∧
      ∃ e, parse_tiling ["1\t100\t0\t100\t100.0\t100.0\t+\tcontig1"] = .error e :=
  ⟨rfl, parse_tiling_headerless_fails "1\t100\t0\t100\t100.0\t100.0\t+\tcontig1" [] rfl⟩
